import Mathlib

/-!
Shallow embedding of the transaction propagation engine of `pico_sqlalchemy`
(`src/pico_sqlalchemy/session.py` and the propagation validation of
`src/pico_sqlalchemy/decorators.py`).

Modelling choices, all read off the source:

* The ambient ContextVar `_tx_context` holds `None` or a `TransactionContext`,
  and `TransactionContext` is a one-field wrapper around a `Session`
  (`__slots__ = ("session",)`), so the slot is modelled as `Option Session`.
  A `Session` is identified by the id the factory gave it; the factory hands
  out strictly increasing ids, so distinct live sessions are distinct values.
* `ContextVar.set` returns a token recording the previous value and
  `ContextVar.reset(token)` writes that previous value back; the model
  captures the previous slot value at the `set` site and writes it back at
  the `reset` site.
* The observable effects on a session (`create_session`, setting an
  isolation level, `commit`, `rollback`, `close`) are recorded in an event
  trace carried by the state.
* A unit of work (the body of the `with manager.transaction(...)` block) is
  a state transformer that either returns normally or raises a Python
  exception; with `@contextmanager`, an exception raised by the body
  (including a cancellation delivered at the yield point) is thrown into the
  generator at `yield` and propagates from there, which is exactly how the
  `except BaseException` / `finally` blocks of the source see it.
* Python exceptions are modelled by their class and message.  The class
  hierarchy fragment used by the engine and its callers is fixed here with
  CPython's inheritance: `Exception`, `CancelledError` and
  `KeyboardInterrupt` derive from `BaseException`; `ValueError`,
  `RuntimeError` and `TypeError` derive from `Exception`.
-/

deriving instance DecidableEq for Except

namespace Pico

/-- Fragment of the Python exception class hierarchy relevant to the engine. -/
inductive ExcClass
  | baseException
  | exception
  | cancelledError
  | keyboardInterrupt
  | valueError
  | runtimeError
  | typeError
  deriving DecidableEq

/-- Method resolution order of each class: itself followed by its bases,
mirroring CPython (`CancelledError` and `KeyboardInterrupt` derive from
`BaseException` directly, not from `Exception`). -/
def ExcClass.mro : ExcClass → List ExcClass
  | .baseException => [.baseException]
  | .exception => [.exception, .baseException]
  | .cancelledError => [.cancelledError, .baseException]
  | .keyboardInterrupt => [.keyboardInterrupt, .baseException]
  | .valueError => [.valueError, .exception, .baseException]
  | .runtimeError => [.runtimeError, .exception, .baseException]
  | .typeError => [.typeError, .exception, .baseException]

/-- A Python exception value: its class and its message. -/
structure Exn where
  cls : ExcClass
  msg : String
  deriving DecidableEq

/-- `isinstance(e, classes)` for a tuple of exception classes. -/
def isinstanceOf (e : Exn) (classes : List ExcClass) : Bool :=
  classes.any (fun c => e.cls.mro.contains c)

/-- A session handle, identified by the id the factory assigned to it. -/
structure Session where
  id : Nat
  deriving DecidableEq

/-- Observable lifecycle effects on sessions, in program order. -/
inductive Event
  | created (s : Session)
  | isolationSet (s : Session) (level : String)
  | committed (s : Session)
  | rolledBack (s : Session)
  | closed (s : Session)
  deriving DecidableEq

/-- The engine state: the ambient transaction slot (`_tx_context`), the next
fresh session id of the factory, and the trace of session lifecycle events. -/
structure TxState where
  slot : Option Session
  nextId : Nat
  events : List Event
  deriving DecidableEq

/-- Append one lifecycle event to the trace. -/
def logEvent (ev : Event) (σ : TxState) : TxState :=
  { σ with events := σ.events ++ [ev] }

/-- `SessionManager.create_session`: the factory returns a fresh session. -/
def create_session (σ : TxState) : Session × TxState :=
  (⟨σ.nextId⟩,
   { σ with
     nextId := σ.nextId + 1
     events := σ.events ++ [Event.created ⟨σ.nextId⟩] })

/-- The isolation-level step of `_start_transaction`: applied only when an
isolation level is given. -/
def applyIsolation (iso : Option String) (s : Session) (σ : TxState) : TxState :=
  match iso with
  | some lvl => logEvent (.isolationSet s lvl) σ
  | none => σ

/-- The rollback classification of `_start_transaction`:
`should_rollback = isinstance(e, rollback_for) and not isinstance(e, no_rollback_for)`. -/
def classifyRollback (e : Exn) (rollback_for no_rollback_for : List ExcClass) : Bool :=
  isinstanceOf e rollback_for && !(isinstanceOf e no_rollback_for)

/-- A unit of work: receives the session the engine yields and the current
state, and either returns normally or raises an exception. -/
def Uow := Session → TxState → Except Exn Unit × TxState

/-- `RuntimeError("MANDATORY propagation requires active transaction")`, the
spec's `NoActiveTransactionError`. -/
def mandatoryError : Exn :=
  ⟨.runtimeError, "MANDATORY propagation requires active transaction"⟩

/-- `RuntimeError("NEVER propagation forbids active transaction")`, the
spec's `ActiveTransactionForbiddenError`. -/
def neverError : Exn :=
  ⟨.runtimeError, "NEVER propagation forbids active transaction"⟩

/-- `RuntimeError("No active transaction")` raised by `get_session`. -/
def noActiveError : Exn := ⟨.runtimeError, "No active transaction"⟩

/-- `ValueError(f"Unknown propagation: {propagation}")` raised by
`SessionManager.transaction`. -/
def unknownPropagationError (p : String) : Exn :=
  ⟨.valueError, "Unknown propagation: " ++ p⟩

/-- `ValueError(f"Invalid propagation: {propagation}")` raised by the
`transactional` decorator at decoration time. -/
def invalidPropagationError (p : String) : Exn :=
  ⟨.valueError, "Invalid propagation: " ++ p⟩

/-- Default of the `rollback_for` parameter: `(Exception,)`. -/
def defaultRollbackFor : List ExcClass := [.exception]

/-- Default of the `no_rollback_for` parameter: `()`. -/
def defaultNoRollbackFor : List ExcClass := []

/-- The try/except/finally stage of `_start_transaction`, applied to the
unit of work's outcome: on normal return commit unless `read_only`; on a
raised exception classify it, roll back when eligible, and re-raise it
unchanged; in the `finally` block reset the slot to the token's value and
close the session. -/
def scopedFinish (session : Session) (token : Option Session) (read_only : Bool)
    (rollback_for no_rollback_for : List ExcClass)
    (r : Except Exn Unit × TxState) : Except Exn Unit × TxState :=
  match r.1 with
  | .ok _ =>
    let σ4 := if read_only then r.2 else logEvent (.committed session) r.2
    (.ok (), logEvent (.closed session) { σ4 with slot := token })
  | .error e =>
    let σ4 := if classifyRollback e rollback_for no_rollback_for
              then logEvent (.rolledBack session) r.2 else r.2
    (.error e, logEvent (.closed session) { σ4 with slot := token })

/-- `SessionManager._start_transaction`: open a fresh session, apply the
isolation level, publish the session into the ambient slot (keeping the
reset token), run the unit of work, and finish with commit / rollback
classification / slot reset / close as in the source. -/
def start_transaction (read_only : Bool) (iso : Option String)
    (rollback_for no_rollback_for : List ExcClass) (uow : Uow) (σ : TxState) :
    Except Exn Unit × TxState :=
  let p := create_session σ
  let session := p.1
  let σ2 := applyIsolation iso session p.2
  scopedFinish session σ2.slot read_only rollback_for no_rollback_for
    (uow session { σ2 with slot := some session })

/-- The unscoped session pattern the source repeats for NEVER,
NOT_SUPPORTED and SUPPORTS without an active transaction:
`session = self.create_session()`, `try: yield session`,
`finally: session.close()` — no commit, no rollback, no slot publication. -/
def run_unscoped (uow : Uow) (σ : TxState) : Except Exn Unit × TxState :=
  let p := create_session σ
  let r := uow p.1 p.2
  (r.1, logEvent (.closed p.1) r.2)

/-- `SessionManager.transaction`: the six propagation modes, in the order the
source tests them, with `ValueError` for an unknown mode. -/
def transaction (propagation : String) (read_only : Bool) (iso : Option String)
    (rollback_for no_rollback_for : List ExcClass) (uow : Uow) (σ : TxState) :
    Except Exn Unit × TxState :=
  if propagation = "MANDATORY" then
    match σ.slot with
    | none => (.error mandatoryError, σ)
    | some s => uow s σ
  else if propagation = "NEVER" then
    match σ.slot with
    | some _ => (.error neverError, σ)
    | none => run_unscoped uow σ
  else if propagation = "NOT_SUPPORTED" then
    match σ.slot with
    | some _ =>
      let token := σ.slot
      let r := run_unscoped uow { σ with slot := none }
      (r.1, { r.2 with slot := token })
    | none => run_unscoped uow σ
  else if propagation = "SUPPORTS" then
    match σ.slot with
    | some s => uow s σ
    | none => run_unscoped uow σ
  else if propagation = "REQUIRES_NEW" then
    match σ.slot with
    | some _ =>
      let token := σ.slot
      let r := start_transaction read_only iso rollback_for no_rollback_for uow
                 { σ with slot := none }
      (r.1, { r.2 with slot := token })
    | none =>
      start_transaction read_only iso rollback_for no_rollback_for uow σ
  else if propagation = "REQUIRED" then
    match σ.slot with
    | some s => uow s σ
    | none =>
      start_transaction read_only iso rollback_for no_rollback_for uow σ
  else
    (.error (unknownPropagationError propagation), σ)

/-- `SessionManager.get_current_session`: the slot's session, if any. -/
def get_current_session (σ : TxState) : Option Session := σ.slot

/-- Module-level `get_session`: the ambient session, or
`RuntimeError("No active transaction")`. -/
def get_session (σ : TxState) : Except Exn Session :=
  match get_current_session σ with
  | none => .error noActiveError
  | some s => .ok s

/-- The set of propagation modes accepted by the `transactional` decorator. -/
def validPropagations : List String :=
  ["REQUIRED", "REQUIRES_NEW", "SUPPORTS", "MANDATORY", "NOT_SUPPORTED", "NEVER"]

/-- The eager decoration-time validation of the `transactional` decorator:
it depends only on the propagation string and runs before any method call. -/
def transactional_validate (propagation : String) : Except Exn Unit :=
  if validPropagations.contains propagation then .ok ()
  else .error (invalidPropagationError propagation)

/-- A unit of work that never changes the ambient slot's value (every
engine entry point has this property; business code only touches sessions). -/
def SlotNeutral (uow : Uow) : Prop :=
  ∀ s σ, ((uow s σ).2).slot = σ.slot

/-- Trace of the isolation-level step of the scoped lifecycle. -/
def isoEvents (iso : Option String) (s : Session) : List Event :=
  match iso with
  | some lvl => [Event.isolationSet s lvl]
  | none => []

theorem slot_logEvent (ev : Event) (σ : TxState) : (logEvent ev σ).slot = σ.slot := rfl

theorem slot_applyIsolation (iso : Option String) (s : Session) (σ : TxState) :
    (applyIsolation iso s σ).slot = σ.slot := by
  cases iso <;> rfl

theorem slot_create_session (σ : TxState) : ((create_session σ).2).slot = σ.slot := rfl

/-- The finish stage always leaves the slot at the token's value. -/
theorem scopedFinish_slot (session : Session) (token : Option Session) (ro : Bool)
    (rf nrf : List ExcClass) (r : Except Exn Unit × TxState) :
    ((scopedFinish session token ro rf nrf r).2).slot = token := by
  obtain ⟨r1, σ3⟩ := r
  cases r1 <;> simp [scopedFinish, slot_logEvent]

/-- The scoped lifecycle restores the slot to its pre-call value on both exit
paths, whatever the unit of work does, because the reset token recorded the
value present when the session was published. -/
theorem start_transaction_slot (ro : Bool) (iso : Option String) (rf nrf : List ExcClass)
    (uow : Uow) (σ : TxState) :
    ((start_transaction ro iso rf nrf uow σ).2).slot = σ.slot := by
  simp [start_transaction, scopedFinish_slot, slot_applyIsolation, slot_create_session]

/-- The unscoped pattern leaves the slot where a slot-neutral unit of work
left it: at its pre-call value. -/
theorem run_unscoped_slot (uow : Uow) (hu : SlotNeutral uow) (σ : TxState) :
    ((run_unscoped uow σ).2).slot = σ.slot := by
  simp [run_unscoped, slot_logEvent]
  rw [hu]
  exact slot_create_session σ

/-- Claim C1: for every propagation mode (the six known ones and the
rejection path for unknown ones) and every descriptor, `transaction` leaves
the ambient slot at exactly its pre-call value on every exit path — normal
return, an exception raised by the unit of work, and cancellation (a
`BaseException` such as `CancelledError` propagating out of the unit of
work) — provided the unit of work is itself slot-neutral.  The scoped and
suspending paths restore the token they set in `finally` blocks; the join
and unscoped paths never mutate the slot at all. -/
theorem transaction_preserves_slot (p : String) (ro : Bool) (iso : Option String)
    (rf nrf : List ExcClass) (uow : Uow) (σ : TxState) (hu : SlotNeutral uow) :
    ((transaction p ro iso rf nrf uow σ).2).slot = σ.slot := by
  unfold transaction
  split_ifs <;> cases h : σ.slot <;>
    simp [h, hu _ _, start_transaction_slot, run_unscoped_slot uow hu]

theorem transaction_preserves_slot_witness :
    ((transaction "REQUIRED" false none defaultRollbackFor defaultNoRollbackFor
      (fun _ t => (.ok (), t)) ⟨none, 0, []⟩).2).slot = none :=
  transaction_preserves_slot "REQUIRED" false none defaultRollbackFor defaultNoRollbackFor
    (fun _ t => (.ok (), t)) ⟨none, 0, []⟩ (fun _ _ => rfl)

/-- Claim C2: a scoped transaction (REQUIRED with empty slot; REQUIRES_NEW
behaves identically there) whose unit of work raises `e` rolls back exactly
when `e` is an instance of some class in `rollback_for` and of no class in
`no_rollback_for` (so `no_rollback_for` overrides `rollback_for`); when not
eligible no rollback event is issued; in both branches the original
exception `e` is re-raised unchanged and the session is closed. -/
theorem scoped_failure_classification (ro : Bool) (iso : Option String)
    (rf nrf : List ExcClass) (e : Exn) (σ : TxState)
    (hslot : σ.slot = none) (hev : σ.events = []) :
    transaction "REQUIRED" ro iso rf nrf (fun _ t => (.error e, t)) σ =
      (.error e,
        { slot := none
          nextId := σ.nextId + 1
          events := [Event.created ⟨σ.nextId⟩] ++ isoEvents iso ⟨σ.nextId⟩
            ++ (if isinstanceOf e rf && !(isinstanceOf e nrf)
                then [Event.rolledBack ⟨σ.nextId⟩] else [])
            ++ [Event.closed ⟨σ.nextId⟩] }) ∧
    transaction "REQUIRES_NEW" ro iso rf nrf (fun _ t => (.error e, t)) σ =
    transaction "REQUIRED" ro iso rf nrf (fun _ t => (.error e, t)) σ := by
  obtain ⟨sl, n, ev⟩ := σ
  simp only [TxState.slot] at hslot
  simp only [TxState.events] at hev
  subst hslot hev
  constructor
  · cases iso <;>
      cases hc : isinstanceOf e rf && !(isinstanceOf e nrf) <;>
        simp [transaction, start_transaction, scopedFinish, classifyRollback,
          create_session, applyIsolation, logEvent, isoEvents, hc]
  · simp [transaction, start_transaction]

theorem scoped_failure_classification_witness :
    transaction "REQUIRED" false none [ExcClass.exception] [ExcClass.valueError]
      (fun _ t => (.error ⟨.valueError, "boom"⟩, t)) ⟨none, 0, []⟩ =
      (.error ⟨.valueError, "boom"⟩, ⟨none, 1, [.created ⟨0⟩, .closed ⟨0⟩]⟩) ∧
    transaction "REQUIRES_NEW" false none [ExcClass.exception] [ExcClass.valueError]
      (fun _ t => (.error ⟨.valueError, "boom"⟩, t)) ⟨none, 0, []⟩ =
    transaction "REQUIRED" false none [ExcClass.exception] [ExcClass.valueError]
      (fun _ t => (.error ⟨.valueError, "boom"⟩, t)) ⟨none, 0, []⟩ :=
  scoped_failure_classification false none [ExcClass.exception] [ExcClass.valueError]
    ⟨.valueError, "boom"⟩ ⟨none, 0, []⟩ rfl rfl

/-- Claim C3: REQUIRES_NEW while an outer session occupies the slot hands
the unit of work the freshly created session `⟨σ.nextId⟩`, which is distinct
from the outer session (the factory never reuses a live id), and the slot
holds exactly the outer session again after the call, whether the inner
unit of work returned or raised (the final characterization quantifies over
an arbitrary unit of work `g`). -/
theorem requires_new_distinct_session (ro : Bool) (iso : Option String)
    (rf nrf : List ExcClass) (g : Uow) (σ : TxState) (outer : Session)
    (hslot : σ.slot = some outer) (hid : outer.id < σ.nextId) :
    (Session.mk σ.nextId ≠ outer) ∧
    ((transaction "REQUIRES_NEW" ro iso rf nrf g σ).2).slot = some outer ∧
    transaction "REQUIRES_NEW" ro iso rf nrf g σ =
      (let s : Session := ⟨σ.nextId⟩
       let σ2 := applyIsolation iso s
         { σ with slot := none, nextId := σ.nextId + 1, events := σ.events ++ [Event.created s] }
       let r := scopedFinish s none ro rf nrf (g s { σ2 with slot := some s })
       (r.1, { r.2 with slot := some outer })) := by
  refine ⟨?_, ?_, ?_⟩
  · intro h
    have h2 := congrArg Session.id h
    simp at h2
    omega
  · simp [transaction, hslot, start_transaction_slot]
  · simp [transaction, hslot, start_transaction, create_session, slot_applyIsolation]

theorem requires_new_distinct_session_witness :
    (Session.mk 1 ≠ ⟨0⟩) ∧
    ((transaction "REQUIRES_NEW" false none defaultRollbackFor defaultNoRollbackFor
      (fun _ t => (.ok (), t)) ⟨some ⟨0⟩, 1, []⟩).2).slot = some ⟨0⟩ ∧
    transaction "REQUIRES_NEW" false none defaultRollbackFor defaultNoRollbackFor
      (fun _ t => (.ok (), t)) ⟨some ⟨0⟩, 1, []⟩ =
      (.ok (), ⟨some ⟨0⟩, 2, [.created ⟨1⟩, .committed ⟨1⟩, .closed ⟨1⟩]⟩) :=
  requires_new_distinct_session false none defaultRollbackFor defaultNoRollbackFor
    (fun _ t => (.ok (), t)) ⟨some ⟨0⟩, 1, []⟩ ⟨0⟩ rfl (by decide)

/-- Claim C4: a scoped transaction (REQUIRED with empty slot; REQUIRES_NEW
behaves identically there) whose unit of work returns normally commits
exactly when `read_only` is false — when `read_only` is true no commit
event appears on the normal-return path — and in both cases the session is
then closed. -/
theorem scoped_commit_iff_not_read_only (ro : Bool) (iso : Option String)
    (rf nrf : List ExcClass) (σ : TxState)
    (hslot : σ.slot = none) (hev : σ.events = []) :
    transaction "REQUIRED" ro iso rf nrf (fun _ t => (.ok (), t)) σ =
      (.ok (),
        { slot := none
          nextId := σ.nextId + 1
          events := [Event.created ⟨σ.nextId⟩] ++ isoEvents iso ⟨σ.nextId⟩
            ++ (if ro then [] else [Event.committed ⟨σ.nextId⟩])
            ++ [Event.closed ⟨σ.nextId⟩] }) ∧
    transaction "REQUIRES_NEW" ro iso rf nrf (fun _ t => (.ok (), t)) σ =
    transaction "REQUIRED" ro iso rf nrf (fun _ t => (.ok (), t)) σ := by
  obtain ⟨sl, n, ev⟩ := σ
  simp only [TxState.slot] at hslot
  simp only [TxState.events] at hev
  subst hslot hev
  constructor
  · cases iso <;> cases ro <;>
      simp [transaction, start_transaction, scopedFinish,
        create_session, applyIsolation, logEvent, isoEvents]
  · simp [transaction, start_transaction]

theorem scoped_commit_iff_not_read_only_witness :
    transaction "REQUIRED" true none defaultRollbackFor defaultNoRollbackFor
      (fun _ t => (.ok (), t)) ⟨none, 0, []⟩ =
      (.ok (), ⟨none, 1, [.created ⟨0⟩, .closed ⟨0⟩]⟩) ∧
    transaction "REQUIRES_NEW" true none defaultRollbackFor defaultNoRollbackFor
      (fun _ t => (.ok (), t)) ⟨none, 0, []⟩ =
    transaction "REQUIRED" true none defaultRollbackFor defaultNoRollbackFor
      (fun _ t => (.ok (), t)) ⟨none, 0, []⟩ :=
  scoped_commit_iff_not_read_only true none defaultRollbackFor defaultNoRollbackFor
    ⟨none, 0, []⟩ rfl rfl

/-- Claim C5: MANDATORY with an empty slot fails with
`RuntimeError("MANDATORY propagation requires active transaction")` (the
spec's `NoActiveTransactionError`) and NEVER with an occupied slot fails
with `RuntimeError("NEVER propagation forbids active transaction")` (the
spec's `ActiveTransactionForbiddenError`); in both cases the final state is
exactly the pre-call state: the slot is unchanged, no session was created,
and no commit, rollback or close event was emitted. -/
theorem structural_violations_fail_fast (ro : Bool) (iso : Option String)
    (rf nrf : List ExcClass) (uow : Uow) (σ₁ σ₂ : TxState) (s : Session)
    (h1 : σ₁.slot = none) (h2 : σ₂.slot = some s) :
    transaction "MANDATORY" ro iso rf nrf uow σ₁ = (.error mandatoryError, σ₁) ∧
    transaction "NEVER" ro iso rf nrf uow σ₂ = (.error neverError, σ₂) := by
  constructor
  · simp [transaction, h1]
  · simp [transaction, h2]

theorem structural_violations_fail_fast_witness :
    transaction "MANDATORY" false none defaultRollbackFor defaultNoRollbackFor
      (fun _ t => (.ok (), t)) ⟨none, 0, []⟩ = (.error mandatoryError, ⟨none, 0, []⟩) ∧
    transaction "NEVER" false none defaultRollbackFor defaultNoRollbackFor
      (fun _ t => (.ok (), t)) ⟨some ⟨0⟩, 1, []⟩ = (.error neverError, ⟨some ⟨0⟩, 1, []⟩) :=
  structural_violations_fail_fast false none defaultRollbackFor defaultNoRollbackFor
    (fun _ t => (.ok (), t)) ⟨none, 0, []⟩ ⟨some ⟨0⟩, 1, []⟩ ⟨0⟩ rfl rfl

/-- Claim C6, counterexample: a SUPPORTS call with an empty slot, normal
return and `read_only = false` emits no commit event, refuting the claim
that SUPPORTS with an empty slot starts a scoped transaction committing on
normal return. -/
theorem supports_empty_scoped_counterexample :
    Event.committed ⟨0⟩ ∉
      ((transaction "SUPPORTS" false none defaultRollbackFor defaultNoRollbackFor
        (fun _ t => (.ok (), t)) ⟨none, 0, []⟩).2).events := by
  decide

/-- Claim C6, amended: SUPPORTS with an empty slot creates an unscoped
session: a fresh session is handed to the unit of work while the ambient
slot is left unchanged (the state passed to `g` keeps the empty slot — no
publication), no commit or rollback is ever issued whatever the outcome,
and the session is closed at exit. -/
theorem supports_empty_unscoped (ro : Bool) (iso : Option String)
    (rf nrf : List ExcClass) (g : Uow) (σ : TxState) (hslot : σ.slot = none) :
    transaction "SUPPORTS" ro iso rf nrf g σ =
      (let r := g ⟨σ.nextId⟩
         { σ with nextId := σ.nextId + 1, events := σ.events ++ [Event.created ⟨σ.nextId⟩] }
       (r.1, logEvent (.closed ⟨σ.nextId⟩) r.2)) := by
  simp [transaction, hslot, run_unscoped, create_session]

theorem supports_empty_unscoped_witness :
    transaction "SUPPORTS" false none defaultRollbackFor defaultNoRollbackFor
      (fun _ t => (.ok (), t)) ⟨none, 0, []⟩ =
      (.ok (), ⟨none, 1, [.created ⟨0⟩, .closed ⟨0⟩]⟩) :=
  supports_empty_unscoped false none defaultRollbackFor defaultNoRollbackFor
    (fun _ t => (.ok (), t)) ⟨none, 0, []⟩ rfl

/-- Claim C7: joining is idempotent — a SUPPORTS or REQUIRED call made while
the slot holds session `s` is literally the identity wrapper around the unit
of work applied to `s`: it yields exactly the ambient session, creates no
session, and performs no commit, rollback or close (the final state is
whatever the unit of work alone produced), so any sequence of such calls
keeps yielding the identical session. -/
theorem join_yields_ambient_session (p : String) (ro : Bool) (iso : Option String)
    (rf nrf : List ExcClass) (g : Uow) (σ : TxState) (s : Session)
    (hp : p = "SUPPORTS" ∨ p = "REQUIRED") (hslot : σ.slot = some s) :
    transaction p ro iso rf nrf g σ = g s σ := by
  rcases hp with hp | hp <;> subst hp <;> simp [transaction, hslot]

theorem join_yields_ambient_session_witness :
    transaction "SUPPORTS" false none defaultRollbackFor defaultNoRollbackFor
      (fun _ t => (.ok (), t)) ⟨some ⟨7⟩, 8, []⟩ = (.ok (), ⟨some ⟨7⟩, 8, []⟩) :=
  join_yields_ambient_session "SUPPORTS" false none defaultRollbackFor defaultNoRollbackFor
    (fun _ t => (.ok (), t)) ⟨some ⟨7⟩, 8, []⟩ ⟨7⟩ (Or.inl rfl) rfl

/-- Claim C8, counterexample: a cancellation (`CancelledError`, which
derives from `BaseException`, not `Exception`) raised inside a scoped
transaction under the default descriptor `rollback_for = (Exception,)`,
`no_rollback_for = ()` is NOT classified as rollback-eligible and no
rollback is issued, refuting the claim that the default descriptor rolls
back on cancellation. -/
theorem cancellation_rollback_counterexample :
    isinstanceOf ⟨.cancelledError, "task cancelled"⟩ defaultRollbackFor = false ∧
    Event.rolledBack ⟨0⟩ ∉
      ((transaction "REQUIRED" false none defaultRollbackFor defaultNoRollbackFor
        (fun _ t => (.error ⟨.cancelledError, "task cancelled"⟩, t)) ⟨none, 0, []⟩).2).events := by
  decide

/-- Claim C8, amended: when a scoped transaction's unit of work is
interrupted by a cancellation signal (`CancelledError` or
`KeyboardInterrupt`), the guaranteed-release step still runs — the ambient
slot is restored and the session is closed — and the cancellation is
re-raised unchanged; but under the default descriptor the cancellation is
classified as NOT rollback-eligible (it is no `Exception` instance), so the
transaction is left uncommitted without an explicit rollback. -/
theorem cancellation_released_not_rolled_back (ro : Bool) (iso : Option String)
    (e : Exn) (σ : TxState)
    (hc : e.cls = ExcClass.cancelledError ∨ e.cls = ExcClass.keyboardInterrupt)
    (hslot : σ.slot = none) (hev : σ.events = []) :
    transaction "REQUIRED" ro iso defaultRollbackFor defaultNoRollbackFor
      (fun _ t => (.error e, t)) σ =
      (.error e,
        { slot := none
          nextId := σ.nextId + 1
          events := [Event.created ⟨σ.nextId⟩] ++ isoEvents iso ⟨σ.nextId⟩
            ++ [Event.closed ⟨σ.nextId⟩] }) := by
  obtain ⟨sl, n, ev⟩ := σ
  simp only [TxState.slot] at hslot
  simp only [TxState.events] at hev
  subst hslot hev
  obtain ⟨c, m⟩ := e
  simp only [Exn.cls] at hc
  have hcl : classifyRollback ⟨c, m⟩ defaultRollbackFor defaultNoRollbackFor = false := by
    rcases hc with hc | hc <;> subst hc <;> rfl
  cases iso <;>
    simp [transaction, start_transaction, scopedFinish, create_session,
      applyIsolation, logEvent, isoEvents, hcl]

theorem cancellation_released_not_rolled_back_witness :
    transaction "REQUIRED" false none defaultRollbackFor defaultNoRollbackFor
      (fun _ t => (.error ⟨.cancelledError, "task cancelled"⟩, t)) ⟨none, 0, []⟩ =
      (.error ⟨.cancelledError, "task cancelled"⟩,
        ⟨none, 1, [.created ⟨0⟩, .closed ⟨0⟩]⟩) :=
  cancellation_released_not_rolled_back false none
    ⟨.cancelledError, "task cancelled"⟩ ⟨none, 0, []⟩ (Or.inl rfl) rfl rfl

/-- Claim C9: the current-session accessor `get_session` fails with
`RuntimeError("No active transaction")` exactly when the ambient slot is
empty, and returns a session exactly when that session is the one in the
slot — it never returns a session other than the ambient one. -/
theorem get_session_ambient (σ : TxState) :
    (σ.slot = none ↔ get_session σ = .error noActiveError) ∧
    ∀ s : Session, (get_session σ = .ok s ↔ σ.slot = some s) := by
  cases h : σ.slot <;> simp [get_session, get_current_session, h]

/-- Claim C10: every propagation string outside the six known modes is
rejected eagerly by the `transactional` decorator's decoration-time check
with `ValueError("Invalid propagation: ...")` — the check depends only on
the string, before any method call — and the engine's run path
independently rejects the same string with
`ValueError("Unknown propagation: ...")`, leaving the state unchanged
rather than silently defaulting. -/
theorem unknown_propagation_rejected (p : String) (ro : Bool) (iso : Option String)
    (rf nrf : List ExcClass) (uow : Uow) (σ : TxState)
    (hp : p ∉ validPropagations) :
    transactional_validate p = .error (invalidPropagationError p) ∧
    transaction p ro iso rf nrf uow σ = (.error (unknownPropagationError p), σ) := by
  simp [validPropagations] at hp
  obtain ⟨h1, h2, h3, h4, h5, h6⟩ := hp
  constructor
  · simp [transactional_validate, validPropagations, h1, h2, h3, h4, h5, h6]
  · simp [transaction, h1, h2, h3, h4, h5, h6]

theorem unknown_propagation_rejected_witness :
    transactional_validate "NESTED" = .error (invalidPropagationError "NESTED") ∧
    transaction "NESTED" false none defaultRollbackFor defaultNoRollbackFor
      (fun _ t => (.ok (), t)) ⟨none, 0, []⟩ =
      (.error (unknownPropagationError "NESTED"), ⟨none, 0, []⟩) :=
  unknown_propagation_rejected "NESTED" false none defaultRollbackFor defaultNoRollbackFor
    (fun _ t => (.ok (), t)) ⟨none, 0, []⟩ (by decide)

end Pico
